import Mathlib

/-!
Shallow embedding of the result-delivery and fetch-orchestration logic of
`src/app.py` (Google Maps business scraper).

The two functions with design content are:
* `send_to_webhook(data, webhook_url, send_individually)` (lines 70-109):
  bulk or per-record webhook delivery with success/failure aggregation;
* `scrape_google_maps(search_query, location, max_results, additional_options)`
  (lines 111-151): builds the Apify run-input document, calls the remote actor,
  and collects the dataset items.

Records are opaque (type parameter `α`).  The network is an oracle: for
delivery, `net : Nat → Option String` gives the outcome of the i-th POST
issued, 0-based (`none` = 2xx success, `some e` = transport error or non-2xx
status, with `e` the text of the `requests.exceptions.RequestException`).
For the fetcher, `world : RunInput → ActorCallResult α` gives the behaviour
of the whole Apify interaction for a given run-input document.  Every
externally visible action (HTTP POST, `time.sleep` pause, actor call) is
recorded in a trace so that "how many requests were issued, in what order,
with what payloads" is provable.
-/

namespace GmapScraper

variable {α : Type}

/-- The JSON payload of one webhook POST, mirroring the two dict shapes built
at src/app.py lines 79-84 (individual) and 99-103 (bulk). -/
inductive WebhookPayload (α : Type) where
  | bulk (timestamp : String) (total_results : Nat) (data : List α)
  | individual (timestamp : String) (record_number : Nat) (total_records : Nat) (data : α)
  deriving DecidableEq

/-- An externally visible action of `send_to_webhook`: an HTTP POST of a
payload, or a `time.sleep` pause (milliseconds). -/
inductive Event (α : Type) where
  | post (payload : WebhookPayload α)
  | sleep (milliseconds : Nat)
  deriving DecidableEq

/-- The value returned by `send_to_webhook` (a `(bool, message)` pair in the
Python), together with the trace of actions it performed. -/
structure SendResult (α : Type) where
  trace : List (Event α)
  success : Bool
  message : String
  deriving DecidableEq

/-- The bulk payload built at src/app.py lines 99-103: `total_results` is
`len(data)` and `data` is the full record list. -/
def bulkPayload (ts : String) (data : List α) : WebhookPayload α :=
  WebhookPayload.bulk ts data.length data

/-- The `data` field of a payload, as a record list (the individual payload
carries exactly one record). -/
def payloadRecords : WebhookPayload α → List α
  | WebhookPayload.bulk _ _ d => d
  | WebhookPayload.individual _ _ _ d => [d]

/-- The record-count field of a payload (`total_results` for bulk,
`total_records` for individual). -/
def payloadTotal : WebhookPayload α → Nat
  | WebhookPayload.bulk _ n _ => n
  | WebhookPayload.individual _ _ n _ => n

/-- One iteration of the `for index, record in enumerate(data, 1)` loop at
src/app.py lines 77-91, acting on the state
`(success_count, failed_count, trace)`.  The pair `ir` is the 0-based loop
index together with the record (the payload uses the 1-based `ir.1 + 1`).
On success (`net ir.1 = none`): `response.raise_for_status()` does not raise,
`success_count` is incremented and `time.sleep(0.1)` runs.  On failure: the
`except` branch increments `failed_count` and `continue`s — no sleep. -/
def individualStep (net : Nat → Option String) (ts : String) (total : Nat)
    (st : Nat × Nat × List (Event α)) (ir : Nat × α) : Nat × Nat × List (Event α) :=
  match net ir.1 with
  | none =>
      (st.1 + 1, st.2.1,
        st.2.2 ++ [Event.post (WebhookPayload.individual ts (ir.1 + 1) total ir.2),
          Event.sleep 100])
  | some _ =>
      (st.1, st.2.1 + 1,
        st.2.2 ++ [Event.post (WebhookPayload.individual ts (ir.1 + 1) total ir.2)])

/-- The whole individual-mode loop (src/app.py lines 74-91): counters start at
0 and every record is visited in order. -/
def individualSend (net : Nat → Option String) (ts : String) (data : List α) :
    Nat × Nat × List (Event α) :=
  data.enum.foldl (individualStep net ts data.length) (0, 0, [])

/-- `send_to_webhook` (src/app.py lines 70-109).  `net` is the network oracle
for the POSTs issued, `ts` the timestamp string.  Bulk mode builds one payload
and issues one POST, failing with `Webhook error: <cause>` on a raised
`RequestException`; individual mode runs the loop and always reports
`success = true`, choosing the message on `failed_count == 0`. -/
def send_to_webhook (net : Nat → Option String) (ts : String) (data : List α)
    (send_individually : Bool) : SendResult α :=
  match send_individually with
  | true =>
      if (individualSend net ts data).2.1 = 0 then
        SendResult.mk (individualSend net ts data).2.2 true
          ("Successfully sent all " ++ toString (individualSend net ts data).1 ++
            " records individually to webhook")
      else
        SendResult.mk (individualSend net ts data).2.2 true
          ("Sent " ++ toString (individualSend net ts data).1 ++
            " records successfully, " ++ toString (individualSend net ts data).2.1 ++
            " failed")
  | false =>
      match net 0 with
      | none =>
          SendResult.mk [Event.post (bulkPayload ts data)] true
            ("Successfully sent " ++ toString data.length ++ " records in bulk to webhook")
      | some e =>
          SendResult.mk [Event.post (bulkPayload ts data)] false
            ("Webhook error: " ++ e)

/-- The POST payloads occurring in a trace, in order. -/
def postsOf (tr : List (Event α)) : List (WebhookPayload α) :=
  tr.filterMap fun ev =>
    match ev with
    | Event.post p => some p
    | Event.sleep _ => none

/-- The options dict passed to `scrape_google_maps` (src/app.py lines
251-259): seven recognized keys, each possibly absent (`none`);
`dict.get(key, default)` becomes `Option.getD`. -/
structure AdditionalOptions where
  skipClosedPlaces : Option Bool
  scrapePlaceDetailPage : Option Bool
  scrapeContacts : Option Bool
  includeWebResults : Option Bool
  maxReviews : Option Nat
  maxImages : Option Nat
  maximumLeadsEnrichmentRecords : Option Nat
  deriving DecidableEq

/-- The Apify run-input document built at src/app.py lines 116-140, with one
field per dict key in source order. -/
structure RunInput where
  searchStringsArray : List String
  locationQuery : String
  maxCrawledPlacesPerSearch : Nat
  language : String
  searchMatching : String
  placeMinimumStars : String
  website : String
  skipClosedPlaces : Bool
  scrapePlaceDetailPage : Bool
  scrapeTableReservationProvider : Bool
  includeWebResults : Bool
  scrapeDirectories : Bool
  maxQuestions : Nat
  scrapeContacts : Bool
  maximumLeadsEnrichmentRecords : Nat
  maxReviews : Nat
  reviewsSort : String
  reviewsFilterString : String
  reviewsOrigin : String
  scrapeReviewsPersonalData : Bool
  maxImages : Nat
  scrapeImageAuthors : Bool
  allPlacesNoSearchAction : String
  deriving DecidableEq

/-- Building the run-input document (src/app.py lines 116-140): explicit
values in source order; absent option keys fall back to the `.get` defaults. -/
def build_run_input (search_query location : String) (max_results : Nat)
    (additional_options : AdditionalOptions) : RunInput :=
  RunInput.mk
    [search_query]
    location
    max_results
    "en"
    "all"
    ""
    "allPlaces"
    (additional_options.skipClosedPlaces.getD false)
    (additional_options.scrapePlaceDetailPage.getD false)
    false
    (additional_options.includeWebResults.getD false)
    false
    0
    (additional_options.scrapeContacts.getD false)
    (additional_options.maximumLeadsEnrichmentRecords.getD 0)
    (additional_options.maxReviews.getD 0)
    "newest"
    ""
    "all"
    true
    (additional_options.maxImages.getD 0)
    false
    ""

/-- The remote dataset as iterated at src/app.py line 145: a stream of items
that ends normally (`done`) or with an exception (`failed`) raised partway
through the iteration. -/
inductive DatasetStream (α : Type) where
  | done
  | yield (item : α) (rest : DatasetStream α)
  | failed (message : String)
  deriving DecidableEq

/-- The behaviour of the whole Apify interaction for one run input: either the
actor call returns a run (with its default dataset as a stream), or some step
raises an exception with the given text. -/
inductive ActorCallResult (α : Type) where
  | ok (defaultDatasetId : String) (dataset : DatasetStream α)
  | raised (message : String)
  deriving DecidableEq

/-- The `for item in ...iterate_items(): results.append(item)` loop inside the
`try` block (src/app.py lines 144-146): items are accumulated in order, and an
exception partway through makes the whole `try` fail — the partial `results`
list is discarded by the `except` handler. -/
def collectItems : DatasetStream α → Except String (List α)
  | DatasetStream.done => Except.ok []
  | DatasetStream.yield x rest =>
      match collectItems rest with
      | Except.ok l => Except.ok (x :: l)
      | Except.error e => Except.error e
  | DatasetStream.failed e => Except.error e

/-- The value returned by `scrape_google_maps` — the Python triple
`(True, results, run)` or `(False, str(e), None)` — plus the trace of actor
calls issued. -/
structure ScrapeResult (α : Type) where
  success : Bool
  results : Option (List α)
  error : Option String
  run : Option String
  trace : List RunInput
  deriving DecidableEq

/-- `scrape_google_maps` (src/app.py lines 111-151): build the run input
(the Python local `run_input`, inlined here), call the actor, collect the
dataset items; any exception in the `try` block yields `(False, str(e),
None)`.  Note: no validation of `max_results` happens before the actor
call. -/
def scrape_google_maps (world : RunInput → ActorCallResult α)
    (search_query location : String) (max_results : Nat)
    (additional_options : AdditionalOptions) : ScrapeResult α :=
  match world (build_run_input search_query location max_results additional_options) with
  | ActorCallResult.raised e =>
      ScrapeResult.mk false none (some e) none
        [build_run_input search_query location max_results additional_options]
  | ActorCallResult.ok runId dataset =>
      match collectItems dataset with
      | Except.error e =>
          ScrapeResult.mk false none (some e) none
            [build_run_input search_query location max_results additional_options]
      | Except.ok items =>
          ScrapeResult.mk true (some items) none (some runId)
            [build_run_input search_query location max_results additional_options]

/-- A stream that yields the given items and then ends normally. -/
def streamOfList : List α → DatasetStream α
  | [] => DatasetStream.done
  | x :: xs => DatasetStream.yield x (streamOfList xs)

/-- A stream that yields the given items and then raises. -/
def streamThenFail (e : String) : List α → DatasetStream α
  | [] => DatasetStream.failed e
  | x :: xs => DatasetStream.yield x (streamThenFail e xs)

/-- Modelled from the spec: the Streamlit slider widget configured at
src/app.py lines 218-224 is library code outside this repository; per its
contract the returned value always lies within the configured
`[min_value, max_value]` range, modelled here as clamping the requested
value into that range. -/
def st_slider (min_value max_value value : Nat) : Nat :=
  max min_value (min max_value value)

/-- The "Maximum Results" slider of src/app.py lines 218-224:
`min_value = 1`, `max_value = 500`. -/
def max_results_slider (value : Nat) : Nat :=
  st_slider 1 500 value

/-- A network oracle on which every POST succeeds. -/
def netOk : Nat → Option String := fun _ => none

/-- A network oracle on which every POST fails. -/
def netFail : Nat → Option String := fun _ => some "connection refused"

/-- A network oracle on which exactly the second POST (0-based index 1)
fails. -/
def netFailSecond : Nat → Option String :=
  fun i => if i = 1 then some "HTTP 500" else none

/-- An options dict with every recognized key absent. -/
def optsNone : AdditionalOptions :=
  AdditionalOptions.mk none none none none none none none

/-- A world in which the actor run succeeds and its dataset is empty. -/
def worldEmpty : RunInput → ActorCallResult Nat :=
  fun _ => ActorCallResult.ok "run1" DatasetStream.done

/-- A world in which the dataset iteration yields two items and then
raises. -/
def worldPartialFail : RunInput → ActorCallResult Nat :=
  fun _ => ActorCallResult.ok "run2" (streamThenFail "stream interrupted" [1, 2])

theorem postsOf_append (a b : List (Event α)) :
    postsOf (a ++ b) = postsOf a ++ postsOf b := by
  simp [postsOf]

theorem individualStep_counts (net : Nat → Option String) (ts : String) (total : Nat)
    (L : List (Nat × α)) :
    ∀ s f tr,
      (L.foldl (individualStep net ts total) (s, f, tr)).1 +
        (L.foldl (individualStep net ts total) (s, f, tr)).2.1 = s + f + L.length := by
  induction L with
  | nil => intro s f tr; simp
  | cons hd tl ih =>
      intro s f tr
      rw [List.foldl_cons]
      cases h : net hd.1 <;>
        simp only [individualStep, h] <;> rw [ih] <;> simp [List.length_cons] <;> omega

theorem individualStep_trace (net : Nat → Option String) (ts : String) (total : Nat)
    (L : List (Nat × α)) :
    ∀ s f tr,
      (L.foldl (individualStep net ts total) (s, f, tr)).2.2 =
        tr ++ L.flatMap (fun p =>
          Event.post (WebhookPayload.individual ts (p.1 + 1) total p.2) ::
            (match net p.1 with
             | none => [Event.sleep 100]
             | some _ => [])) := by
  induction L with
  | nil => intro s f tr; simp
  | cons hd tl ih =>
      intro s f tr
      rw [List.foldl_cons, List.flatMap_cons]
      cases h : net hd.1 <;> simp only [individualStep, h] <;> rw [ih] <;> simp

theorem postsOf_chunks (net : Nat → Option String) (ts : String) (total : Nat)
    (L : List (Nat × α)) :
    postsOf (L.flatMap (fun p =>
        Event.post (WebhookPayload.individual ts (p.1 + 1) total p.2) ::
          (match net p.1 with
           | none => [Event.sleep 100]
           | some _ => []))) =
      L.map (fun p => WebhookPayload.individual ts (p.1 + 1) total p.2) := by
  induction L with
  | nil => simp [postsOf]
  | cons hd tl ih =>
      rw [List.flatMap_cons, List.map_cons, postsOf_append, ih]
      cases h : net hd.1 <;> simp [postsOf]

theorem send_individual_trace (net : Nat → Option String) (ts : String) (data : List α) :
    (send_to_webhook net ts data true).trace = (individualSend net ts data).2.2 := by
  simp only [send_to_webhook]
  split <;> rfl

theorem send_individual_posts (net : Nat → Option String) (ts : String) (data : List α) :
    postsOf (send_to_webhook net ts data true).trace =
      data.enum.map (fun p => WebhookPayload.individual ts (p.1 + 1) data.length p.2) := by
  rw [send_individual_trace, individualSend, individualStep_trace, postsOf_append,
    postsOf_chunks]
  simp [postsOf]

theorem send_individual_success (net : Nat → Option String) (ts : String) (data : List α) :
    (send_to_webhook net ts data true).success = true := by
  simp only [send_to_webhook]
  split <;> rfl

theorem collectItems_streamOfList (l : List α) :
    collectItems (streamOfList l) = Except.ok l := by
  induction l with
  | nil => rfl
  | cons x xs ih => simp [streamOfList, collectItems, ih]

theorem collectItems_streamThenFail (e : String) (l : List α) :
    collectItems (streamThenFail e l) = Except.error e := by
  induction l with
  | nil => rfl
  | cons x xs ih => simp [streamThenFail, collectItems, ih]

/-- Claim C1: for every record list of size N ≥ 0 delivered in bulk mode,
exactly one POST is issued, its payload has `total_results = N` and `data`
equal to the full list in original order (this holds for N = 0 too), and on
success the outcome is `success = true` with message
"Successfully sent N records in bulk to webhook". -/
theorem webhook_bulk_single_post (net : Nat → Option String) (ts : String)
    (data : List α) :
    postsOf (send_to_webhook net ts data false).trace =
      [WebhookPayload.bulk ts data.length data] ∧
    (net 0 = none →
      (send_to_webhook net ts data false).success = true ∧
      (send_to_webhook net ts data false).message =
        "Successfully sent " ++ toString data.length ++ " records in bulk to webhook") := by
  constructor
  · cases h : net 0 <;> simp [send_to_webhook, bulkPayload, postsOf, h]
  · intro h
    simp [send_to_webhook, h]

theorem webhook_bulk_single_post_witness :
    netOk 0 = none ∧
    postsOf (send_to_webhook netOk "t0" ([] : List Nat) false).trace =
      [WebhookPayload.bulk "t0" 0 []] ∧
    (send_to_webhook netOk "t0" ([] : List Nat) false).success = true ∧
    (send_to_webhook netOk "t0" ([] : List Nat) false).message =
      "Successfully sent 0 records in bulk to webhook" := by
  refine ⟨rfl, ?_, ?_, ?_⟩
  · exact (webhook_bulk_single_post netOk "t0" ([] : List Nat)).1
  · exact ((webhook_bulk_single_post netOk "t0" ([] : List Nat)).2 rfl).1
  · exact ((webhook_bulk_single_post netOk "t0" ([] : List Nat)).2 rfl).2

/-- Claim C2: in individual mode exactly N POSTs are issued, one per record
in list order; the i-th POST (1-based) carries `record_number = i`,
`total_records = N` and that record as `data`; for N = 0 zero POSTs are
issued and the outcome is still non-error. -/
theorem webhook_individual_per_record (net : Nat → Option String) (ts : String)
    (data : List α) :
    postsOf (send_to_webhook net ts data true).trace =
      data.enum.map (fun p => WebhookPayload.individual ts (p.1 + 1) data.length p.2) ∧
    (postsOf (send_to_webhook net ts data true).trace).length = data.length ∧
    (data = [] →
      postsOf (send_to_webhook net ts data true).trace = [] ∧
      (send_to_webhook net ts data true).success = true) := by
  refine ⟨send_individual_posts net ts data, ?_, ?_⟩
  · rw [send_individual_posts]
    simp [List.enum_length]
  · rintro rfl
    exact ⟨by rw [send_individual_posts]; rfl, send_individual_success net ts []⟩

theorem webhook_individual_per_record_witness :
    (([] : List Nat) = []) ∧
    postsOf (send_to_webhook netOk "t1" ([] : List Nat) true).trace = [] ∧
    (send_to_webhook netOk "t1" ([] : List Nat) true).success = true := by
  refine ⟨rfl, ?_, ?_⟩
  · exact ((webhook_individual_per_record netOk "t1" ([] : List Nat)).2.2 rfl).1
  · exact ((webhook_individual_per_record netOk "t1" ([] : List Nat)).2.2 rfl).2

/-- Claim C3: in individual mode a per-record failure is only counted — the
loop never aborts and never retries, so every record gets exactly one POST —
and the outcome always has `success = true`, with message
"Sent X records successfully, Y failed" when the failure count Y is nonzero
and "Successfully sent all X records individually to webhook" when Y = 0. -/
theorem webhook_individual_outcome (net : Nat → Option String) (ts : String)
    (data : List α) :
    (send_to_webhook net ts data true).success = true ∧
    (postsOf (send_to_webhook net ts data true).trace).length = data.length ∧
    ((individualSend net ts data).2.1 = 0 →
      (send_to_webhook net ts data true).message =
        "Successfully sent all " ++ toString (individualSend net ts data).1 ++
          " records individually to webhook") ∧
    ((individualSend net ts data).2.1 ≠ 0 →
      (send_to_webhook net ts data true).message =
        "Sent " ++ toString (individualSend net ts data).1 ++
          " records successfully, " ++ toString (individualSend net ts data).2.1 ++
          " failed") := by
  refine ⟨send_individual_success net ts data, ?_, ?_, ?_⟩
  · rw [send_individual_posts]
    simp [List.enum_length]
  · intro h
    simp only [send_to_webhook, if_pos h]
  · intro h
    simp only [send_to_webhook, if_neg h]

theorem webhook_individual_outcome_witness :
    (individualSend netFailSecond "t2" ([10, 20, 30] : List Nat)).2.1 ≠ 0 ∧
    (send_to_webhook netFailSecond "t2" ([10, 20, 30] : List Nat) true).success = true ∧
    (send_to_webhook netFailSecond "t2" ([10, 20, 30] : List Nat) true).message =
      "Sent 2 records successfully, 1 failed" := by
  refine ⟨by decide, ?_, ?_⟩
  · exact (webhook_individual_outcome netFailSecond "t2" ([10, 20, 30] : List Nat)).1
  · exact (webhook_individual_outcome netFailSecond "t2"
      ([10, 20, 30] : List Nat)).2.2.2 (by decide)

/-- Claim C4: in bulk mode, a failed single POST (non-2xx or transport error,
cause `e`) makes the delivery return `success = false` with message
"Webhook error: <e>"; the failure is a returned value (the embedding is a
total function into `SendResult`) and the single POST was still issued. -/
theorem webhook_bulk_failure (net : Nat → Option String) (ts : String) (data : List α)
    (e : String) (h : net 0 = some e) :
    (send_to_webhook net ts data false).success = false ∧
    (send_to_webhook net ts data false).message = "Webhook error: " ++ e ∧
    postsOf (send_to_webhook net ts data false).trace =
      [WebhookPayload.bulk ts data.length data] := by
  refine ⟨?_, ?_, ?_⟩ <;> simp [send_to_webhook, bulkPayload, postsOf, h]

theorem webhook_bulk_failure_witness :
    netFail 0 = some "connection refused" ∧
    (send_to_webhook netFail "t4" ([7] : List Nat) false).success = false ∧
    (send_to_webhook netFail "t4" ([7] : List Nat) false).message =
      "Webhook error: connection refused" := by
  refine ⟨rfl, ?_, ?_⟩
  · exact (webhook_bulk_failure netFail "t4" ([7] : List Nat) "connection refused" rfl).1
  · exact (webhook_bulk_failure netFail "t4" ([7] : List Nat) "connection refused" rfl).2.1

/-- Claim C5, counterexample: with `max_results = 501` (outside [1, 500]) the
fetch is not rejected — the actor call is still issued, carrying 501 as
`maxCrawledPlacesPerSearch`, and the call even succeeds.  No boundary
validation exists inside `scrape_google_maps`. -/
theorem scrape_out_of_range_counterexample :
    (scrape_google_maps worldEmpty "clinics" "Dubai" 501 optsNone).trace =
      [build_run_input "clinics" "Dubai" 501 optsNone] ∧
    (build_run_input "clinics" "Dubai" 501 optsNone).maxCrawledPlacesPerSearch = 501 ∧
    (scrape_google_maps worldEmpty "clinics" "Dubai" 501 optsNone).success = true :=
  ⟨rfl, rfl, rfl⟩

/-- Claim C5, amended: `scrape_google_maps` performs no `max_results`
validation — for every value, in range or not, it issues exactly one actor
call forwarding that value; the [1, 500] bound is enforced only by the UI
slider, whose returned value always lies in [1, 500]. -/
theorem scrape_no_max_results_validation (world : RunInput → ActorCallResult α)
    (search_query location : String) (max_results : Nat) (opts : AdditionalOptions) :
    (scrape_google_maps world search_query location max_results opts).trace =
      [build_run_input search_query location max_results opts] ∧
    (build_run_input search_query location max_results opts).maxCrawledPlacesPerSearch =
      max_results ∧
    (∀ v, 1 ≤ max_results_slider v ∧ max_results_slider v ≤ 500) := by
  refine ⟨?_, rfl, ?_⟩
  · cases hw : world (build_run_input search_query location max_results opts) with
    | raised e => simp [scrape_google_maps, hw]
    | ok runId dataset =>
        cases hc : collectItems dataset <;> simp [scrape_google_maps, hw, hc]
  · intro v
    simp only [max_results_slider, st_slider]
    omega

/-- Claim C6: the fetch is all-or-nothing.  Any failure (actor exception, or
dataset iteration raising after yielding some items) returns `success = false`
with the cause and `results = none` — never a partial list — while a run whose
dataset yields zero items returns `success = true` with `results = some []`,
distinguishable from every failure by the success flag. -/
theorem scrape_all_or_nothing (world : RunInput → ActorCallResult α)
    (search_query location : String) (max_results : Nat) (opts : AdditionalOptions) :
    ((scrape_google_maps world search_query location max_results opts).success = false →
      (scrape_google_maps world search_query location max_results opts).results = none ∧
      (scrape_google_maps world search_query location max_results opts).error.isSome
        = true) ∧
    (∀ runId items e,
      world (build_run_input search_query location max_results opts) =
        ActorCallResult.ok runId (streamThenFail e items) →
      (scrape_google_maps world search_query location max_results opts).success = false ∧
      (scrape_google_maps world search_query location max_results opts).results = none ∧
      (scrape_google_maps world search_query location max_results opts).error = some e) ∧
    (∀ e,
      world (build_run_input search_query location max_results opts) =
        ActorCallResult.raised e →
      (scrape_google_maps world search_query location max_results opts).success = false ∧
      (scrape_google_maps world search_query location max_results opts).error = some e) ∧
    (∀ runId items,
      world (build_run_input search_query location max_results opts) =
        ActorCallResult.ok runId (streamOfList items) →
      (scrape_google_maps world search_query location max_results opts).success = true ∧
      (scrape_google_maps world search_query location max_results opts).results =
        some items ∧
      (scrape_google_maps world search_query location max_results opts).error = none) := by
  refine ⟨?_, ?_, ?_, ?_⟩
  · intro h
    cases hw : world (build_run_input search_query location max_results opts) with
    | raised e => simp [scrape_google_maps, hw]
    | ok runId dataset =>
        cases hc : collectItems dataset with
        | error e => simp [scrape_google_maps, hw, hc]
        | ok items => simp [scrape_google_maps, hw, hc] at h
  · intro runId items e hw
    simp [scrape_google_maps, hw, collectItems_streamThenFail]
  · intro e hw
    simp [scrape_google_maps, hw]
  · intro runId items hw
    simp [scrape_google_maps, hw, collectItems_streamOfList]

theorem scrape_all_or_nothing_witness :
    worldPartialFail (build_run_input "clinics" "Dubai" 5 optsNone) =
      ActorCallResult.ok "run2" (streamThenFail "stream interrupted" [1, 2]) ∧
    (scrape_google_maps worldPartialFail "clinics" "Dubai" 5 optsNone).success = false ∧
    (scrape_google_maps worldPartialFail "clinics" "Dubai" 5 optsNone).results = none ∧
    (scrape_google_maps worldPartialFail "clinics" "Dubai" 5 optsNone).error =
      some "stream interrupted" := by
  have h := (scrape_all_or_nothing worldPartialFail "clinics" "Dubai" 5 optsNone).2.1
    "run2" [1, 2] "stream interrupted" rfl
  exact ⟨rfl, h.1, h.2.1, h.2.2⟩

/-- Claim C7, counterexample: with two records whose POSTs both fail, the
trace is two adjacent POST events with no `time.sleep` pause anywhere — the
100ms pause does not separate consecutive POSTs when an attempt fails,
because `time.sleep(0.1)` sits inside the `try` block after
`raise_for_status()` and is skipped on the `except` path. -/
theorem webhook_no_pause_after_failure_counterexample :
    (send_to_webhook netFail "t3" ([1, 2] : List Nat) true).trace =
      [Event.post (WebhookPayload.individual "t3" 1 2 1),
        Event.post (WebhookPayload.individual "t3" 2 2 2)] ∧
    Event.sleep 100 ∉ (send_to_webhook netFail "t3" ([1, 2] : List Nat) true).trace := by
  constructor
  · rfl
  · decide

/-- Claim C7, amended: in individual mode the 100ms pause follows exactly the
successful POST attempts (including the last one); after a failed attempt the
next POST is issued immediately with no pause.  The full trace is each POST
followed by a pause precisely when the corresponding attempt succeeded. -/
theorem webhook_pause_only_after_success (net : Nat → Option String) (ts : String)
    (data : List α) :
    (send_to_webhook net ts data true).trace =
      data.enum.flatMap (fun p =>
        Event.post (WebhookPayload.individual ts (p.1 + 1) data.length p.2) ::
          (match net p.1 with
           | none => [Event.sleep 100]
           | some _ => [])) := by
  rw [send_individual_trace, individualSend, individualStep_trace]
  simp

/-- Claim C8: the run-input document always carries the fixed fields
`language = "en"` and `searchMatching = "all"` (match-all-terms) whatever the
options, and every absent recognized option key takes its documented default
(booleans false, numeric caps 0). -/
theorem run_input_defaults (search_query location : String) (max_results : Nat)
    (opts : AdditionalOptions) :
    (build_run_input search_query location max_results opts).language = "en" ∧
    (build_run_input search_query location max_results opts).searchMatching = "all" ∧
    (opts.skipClosedPlaces = none →
      (build_run_input search_query location max_results opts).skipClosedPlaces = false) ∧
    (opts.scrapePlaceDetailPage = none →
      (build_run_input search_query location max_results opts).scrapePlaceDetailPage
        = false) ∧
    (opts.scrapeContacts = none →
      (build_run_input search_query location max_results opts).scrapeContacts = false) ∧
    (opts.includeWebResults = none →
      (build_run_input search_query location max_results opts).includeWebResults
        = false) ∧
    (opts.maxReviews = none →
      (build_run_input search_query location max_results opts).maxReviews = 0) ∧
    (opts.maxImages = none →
      (build_run_input search_query location max_results opts).maxImages = 0) ∧
    (opts.maximumLeadsEnrichmentRecords = none →
      (build_run_input search_query location max_results
        opts).maximumLeadsEnrichmentRecords = 0) := by
  refine ⟨rfl, rfl, ?_, ?_, ?_, ?_, ?_, ?_, ?_⟩ <;>
    (intro h; simp [build_run_input, h])

theorem run_input_defaults_witness :
    optsNone.skipClosedPlaces = none ∧
    optsNone.scrapePlaceDetailPage = none ∧
    optsNone.scrapeContacts = none ∧
    optsNone.includeWebResults = none ∧
    optsNone.maxReviews = none ∧
    optsNone.maxImages = none ∧
    optsNone.maximumLeadsEnrichmentRecords = none ∧
    (build_run_input "clinics" "Dubai" 50 optsNone).language = "en" ∧
    (build_run_input "clinics" "Dubai" 50 optsNone).searchMatching = "all" ∧
    (build_run_input "clinics" "Dubai" 50 optsNone).skipClosedPlaces = false ∧
    (build_run_input "clinics" "Dubai" 50 optsNone).scrapePlaceDetailPage = false ∧
    (build_run_input "clinics" "Dubai" 50 optsNone).scrapeContacts = false ∧
    (build_run_input "clinics" "Dubai" 50 optsNone).includeWebResults = false ∧
    (build_run_input "clinics" "Dubai" 50 optsNone).maxReviews = 0 ∧
    (build_run_input "clinics" "Dubai" 50 optsNone).maxImages = 0 ∧
    (build_run_input "clinics" "Dubai" 50 optsNone).maximumLeadsEnrichmentRecords = 0 := by
  have h := run_input_defaults "clinics" "Dubai" 50 optsNone
  exact ⟨rfl, rfl, rfl, rfl, rfl, rfl, rfl, h.1, h.2.1, h.2.2.1 rfl, h.2.2.2.1 rfl,
    h.2.2.2.2.1 rfl, h.2.2.2.2.2.1 rfl, h.2.2.2.2.2.2.1 rfl, h.2.2.2.2.2.2.2.1 rfl,
    h.2.2.2.2.2.2.2.2 rfl⟩

/-- Claim C9: embedding a record list into the bulk payload (`data` field,
`total_results` set to its length) and extracting the record list back yields
the original list, record for record, order preserved. -/
theorem bulk_payload_round_trip (ts : String) (records : List α) :
    payloadRecords (bulkPayload ts records) = records ∧
    payloadTotal (bulkPayload ts records) = records.length :=
  ⟨rfl, rfl⟩

/-- Claim C10: loop invariant of the individual-mode delivery — after any
number k of iterations the success counter plus the failure counter equals
the number of records processed so far (min k N), and at loop exit the two
counters sum to the length of the input list. -/
theorem individual_counts_invariant (net : Nat → Option String) (ts : String)
    (data : List α) :
    (∀ k,
      ((data.enum.take k).foldl (individualStep net ts data.length) (0, 0, [])).1 +
        ((data.enum.take k).foldl (individualStep net ts data.length) (0, 0, [])).2.1 =
        min k data.length) ∧
    (individualSend net ts data).1 + (individualSend net ts data).2.1 = data.length := by
  constructor
  · intro k
    rw [individualStep_counts net ts data.length (data.enum.take k) 0 0 []]
    simp [List.length_take, List.enum_length]
  · rw [individualSend, individualStep_counts net ts data.length data.enum 0 0 []]
    simp [List.enum_length]

end GmapScraper
